import Mathlib

/-!
# Website/webscraper.go

A trace model of `main` from `src/Website/webscraper.go`.

`main` is straight-line glue around calls into the Go standard library and the
`goelp` package. Every such call is an answer of the environment `Env`; `main`
itself is modelled as the function from an environment to the way its body
completes together with the ordered list of calls and log lines it performs.

The types of `goelp` (proxy URL, client, scraped data, sort mode), the error
type and the file handle are parameters: their declarations are not part of
the repository.

The file as given is not accepted by the Go compiler: `fmt` is used without
being imported, and line 25 is a `continue` that no loop encloses. Go gives
that statement no meaning, so the model does not choose one: `main` takes the
reading of line 25 as a parameter (`Line25`), and what is proved of `main`
without naming a reading holds under every reading.
-/

namespace Webscraper

/-- One element of `data.Images`: only the two fields `main` reads. -/
structure Img where
  Content : List Nat
  Extension : String
deriving DecidableEq, Repr

/-- How the execution of the body ends. `normal`: the last statement was
executed. `returned`: a `return` statement was executed. `continued`: the body
was left at the `continue` of line 25 (reading `Line25.stops` only). -/
inductive Completion where
  | normal
  | returned
  | continued
deriving DecidableEq, Repr

/-- The calls `main` makes, with their arguments, in the order they happen.
For the two calls whose returned error `main` drops (`os.WriteFile` and
`Encoder.Encode`) the event also records the error that came back. -/
inductive Event (Err Proxy Client Data File SortMode : Type) where
  | mkdirAll (path : String) (perm : Nat)
  | parseProxy (raw user pass : String)
  | newClient (locale location : String) (sort : SortMode) (proxy : Proxy)
  | getFromYelpBizURL (client : Client) (url : String)
  | setImages (data : Data) (proxy : Proxy)
  | writeFile (path : String) (content : List Nat) (perm : Nat) (res : Option Err)
  | create (path : String)
  | encode (f : File) (data : Data) (res : Option Err)
  | log (tag : String) (err : Err)
deriving DecidableEq, Repr

/-- The answers of everything `main` calls. An `Option Err` is a Go `error`
(`none` is `nil`); an `Except` is a Go `(value, error)` pair. `writeFile` also
receives the number of earlier `os.WriteFile` calls, so that the same path may
be answered differently at different times. `proxyURL` is the field
`client.ProxyURL`, `images` the field `data.Images`; `setImages` returns the
value of the variable `data` after the call. -/
structure Env (Err Proxy Client Data File SortMode : Type) where
  mkdirAll : String → Nat → Option Err
  parseProxy : String → String → String → Except Err Proxy
  sortHighestRate : SortMode
  newClient : String → String → SortMode → Proxy → Client
  proxyURL : Client → Proxy
  getFromYelpBizURL : Client → String → Except Err Data
  setImages : Data → Proxy → Except Err Data
  images : Data → List Img
  writeFile : Nat → String → List Nat → Nat → Option Err
  create : String → Except Err File
  encode : File → Data → Option Err

variable {Err Proxy Client Data File SortMode : Type}

/-- The value of `fmt.Sprintf("./test/images/%d%s", j, ext)` for an index `j ≥ 0`. -/
def fname3 (j : Nat) (ext : String) : String :=
  "./test/images/" ++ Nat.repr j ++ ext

/-- Lines 31-34: `for j, img := range data.Images`, started at index `j`. Each
iteration formats the name and calls `os.WriteFile`; the returned error is
not looked at. -/
def writeImages (w : Env Err Proxy Client Data File SortMode) :
    Nat → List Img → List (Event Err Proxy Client Data File SortMode)
  | _, [] => []
  | j, img :: rest =>
    Event.writeFile (fname3 j img.Extension) img.Content 0o644
        (w.writeFile j (fname3 j img.Extension) img.Content 0o644)
      :: writeImages w (j + 1) rest

/-- The readings of line 25, a `continue` with no enclosing loop. The error
branches of the four sibling stages end in `return`; this one does not, and
the source does not say what follows it. `stops`: the statement leaves the
body, nothing of `main` runs after it. `fallsThrough data`: the statement
does not leave the body and control goes on to line 27, the variable `data`
holding the value `GetFromYelpBizURL` returned next to its error. -/
inductive Line25 (Data : Type) where
  | stops
  | fallsThrough (data : Data)
deriving DecidableEq, Repr

/-- Lines 27-40, entered with the client, the variable `data` and the trace so
far: `SetImages`, the image loop, `os.Create` and `Encode`. -/
def fromLine27 (w : Env Err Proxy Client Data File SortMode) (client : Client) (data : Data)
    (t : List (Event Err Proxy Client Data File SortMode)) :
    Completion × List (Event Err Proxy Client Data File SortMode) :=
  let t4 := t ++ [Event.setImages data (w.proxyURL client)]
  match w.setImages data (w.proxyURL client) with
  | Except.error err => (Completion.returned, t4 ++ [Event.log "test:3 -> err: " err])
  | Except.ok data =>
  let t5 := t4 ++ writeImages w 0 (w.images data) ++ [Event.create "./test/data.json"]
  match w.create "./test/data.json" with
  | Except.error err => (Completion.returned, t5 ++ [Event.log "test:4 -> err: " err])
  | Except.ok f => (Completion.normal, t5 ++ [Event.encode f data (w.encode f data)])

/-- Lines 9-41: the body of `main`, under a reading of line 25. -/
def main (r : Line25 Data) (w : Env Err Proxy Client Data File SortMode) :
    Completion × List (Event Err Proxy Client Data File SortMode) :=
  let t1 := [Event.mkdirAll "./test/images" 0o644]
  match w.mkdirAll "./test/images" 0o644 with
  | some err => (Completion.returned, t1 ++ [Event.log "test 1 -> err: " err])
  | none =>
  let t2 := t1 ++ [Event.parseProxy "http://[IP | domain]:[port]" "username" "password"]
  match w.parseProxy "http://[IP | domain]:[port]" "username" "password" with
  | Except.error err => (Completion.returned, t2 ++ [Event.log "test:1 -> err: " err])
  | Except.ok proxyURL =>
  let client := w.newClient "es_MX" "San Francisco, CA" w.sortHighestRate proxyURL
  let yelpBizURL := "https://www.yelp.com.mx/biz/[yelp bizness name]"
  let t3 := t2 ++ [Event.newClient "es_MX" "San Francisco, CA" w.sortHighestRate proxyURL,
                   Event.getFromYelpBizURL client yelpBizURL]
  match w.getFromYelpBizURL client yelpBizURL with
  | Except.error err =>
    let t := t3 ++ [Event.log "test:2 -> err: " err]
    match r with
    | Line25.stops => (Completion.continued, t)
    | Line25.fallsThrough data => fromLine27 w client data t
  | Except.ok data => fromLine27 w client data t3

/-! ## Observations on a run -/

/-- The names of the operations that occur in a trace. -/
inductive Call where
  | mkdirAll | parseProxy | newClient | getFromYelpBizURL | setImages
  | writeFile | create | encode | log
deriving DecidableEq, Repr

/-- The operation an event is a call of. -/
def Event.call : Event Err Proxy Client Data File SortMode → Call
  | Event.mkdirAll _ _ => Call.mkdirAll
  | Event.parseProxy _ _ _ => Call.parseProxy
  | Event.newClient _ _ _ _ => Call.newClient
  | Event.getFromYelpBizURL _ _ => Call.getFromYelpBizURL
  | Event.setImages _ _ => Call.setImages
  | Event.writeFile _ _ _ _ => Call.writeFile
  | Event.create _ => Call.create
  | Event.encode _ _ _ => Call.encode
  | Event.log _ _ => Call.log

/-- The operations of a trace, in order. -/
def calls (t : List (Event Err Proxy Client Data File SortMode)) : List Call :=
  t.map Event.call

/-- The file-system path an event creates or writes, if it has one. -/
def Event.path? : Event Err Proxy Client Data File SortMode → Option String
  | Event.mkdirAll p _ => some p
  | Event.writeFile p _ _ _ => some p
  | Event.create p => some p
  | _ => none

/-- The arguments of an `os.WriteFile` call. -/
def Event.write? : Event Err Proxy Client Data File SortMode →
    Option (String × List Nat × Nat)
  | Event.writeFile p c m _ => some (p, c, m)
  | _ => none

/-- The `os.WriteFile` calls of a trace, in order. -/
def writes (t : List (Event Err Proxy Client Data File SortMode)) :
    List (String × List Nat × Nat) :=
  t.filterMap Event.write?

/-- The tag and error of a `log.Println` line. -/
def Event.log? : Event Err Proxy Client Data File SortMode → Option (String × Err)
  | Event.log tag err => some (tag, err)
  | _ => none

/-- The log lines of a trace, in order. -/
def logs (t : List (Event Err Proxy Client Data File SortMode)) : List (String × Err) :=
  t.filterMap Event.log?

/-! ## The five checked stages -/

/-- The five calls whose error `main` tests, in the order of the calls. -/
inductive Stage where
  | mkdirAll | parseProxy | getFromYelpBizURL | setImages | create
deriving DecidableEq, Repr

/-- The first argument of the `log.Println` in the error branch of a stage
(lines 12, 17, 24, 28 and 37). -/
def Stage.tag : Stage → String
  | Stage.mkdirAll => "test 1 -> err: "
  | Stage.parseProxy => "test:1 -> err: "
  | Stage.getFromYelpBizURL => "test:2 -> err: "
  | Stage.setImages => "test:3 -> err: "
  | Stage.create => "test:4 -> err: "

/-- The first of the five checked stages whose call answers with an error,
with that error; `none` when all five succeed. A stage is asked with the
values the earlier stages produced. -/
def firstFailed (w : Env Err Proxy Client Data File SortMode) : Option (Stage × Err) :=
  match w.mkdirAll "./test/images" 0o644 with
  | some err => some (Stage.mkdirAll, err)
  | none =>
  match w.parseProxy "http://[IP | domain]:[port]" "username" "password" with
  | Except.error err => some (Stage.parseProxy, err)
  | Except.ok proxy =>
  match w.getFromYelpBizURL (w.newClient "es_MX" "San Francisco, CA" w.sortHighestRate proxy)
      "https://www.yelp.com.mx/biz/[yelp bizness name]" with
  | Except.error err => some (Stage.getFromYelpBizURL, err)
  | Except.ok data =>
  match w.setImages data
      (w.proxyURL (w.newClient "es_MX" "San Francisco, CA" w.sortHighestRate proxy)) with
  | Except.error err => some (Stage.setImages, err)
  | Except.ok _ =>
  match w.create "./test/data.json" with
  | Except.error err => some (Stage.create, err)
  | Except.ok _ => none

/-- An extension that is empty or begins with a character that is not a
decimal digit. -/
def extOk (ext : String) : Bool :=
  match ext.data with
  | [] => true
  | c :: _ => !c.isDigit

/-- The value of a decimal digit character. -/
def digitValue (c : Char) : Nat :=
  c.toNat - 48

/-- The number a list of decimal digit characters denotes, most significant
digit first. -/
def decimalValue (cs : List Char) : Nat :=
  cs.foldl (fun acc c => 10 * acc + digitValue c) 0

/-! ## Concrete environments -/

/-- The two images the concrete environments download. -/
def twoImages : List Img :=
  [⟨[255, 216, 255], ".jpg"⟩, ⟨[137, 80, 78, 71], ".png"⟩]

/-- Every call succeeds. Errors, proxies, clients and file handles are
strings, the scraped data is its image list; the client is its proxy. -/
def okEnv : Env String String String (List Img) String Nat where
  mkdirAll := fun _ _ => none
  parseProxy := fun raw _ _ => Except.ok raw
  sortHighestRate := 0
  newClient := fun _ _ _ proxy => proxy
  proxyURL := fun client => client
  getFromYelpBizURL := fun _ _ => Except.ok []
  setImages := fun _ _ => Except.ok twoImages
  images := fun data => data
  writeFile := fun _ _ _ _ => none
  create := fun path => Except.ok path
  encode := fun _ _ => none

/-- As `okEnv`, but `goelp.ParseProxy` rejects the descriptor. -/
def badProxyEnv : Env String String String (List Img) String Nat :=
  { okEnv with parseProxy := fun _ _ _ => Except.error "invalid proxy" }

/-- As `okEnv`, but the page fetch fails. -/
def fetchFailEnv : Env String String String (List Img) String Nat :=
  { okEnv with getFromYelpBizURL := fun _ _ => Except.error "fetch failed" }

/-- As `okEnv`, but the page fetch fails and `SetImages` fails. -/
def twoFailEnv : Env String String String (List Img) String Nat :=
  { okEnv with
    getFromYelpBizURL := fun _ _ => Except.error "fetch failed"
    setImages := fun _ _ => Except.error "no image" }

/-- As `okEnv`, but `SetImages` fails. -/
def imagesFailEnv : Env String String String (List Img) String Nat :=
  { okEnv with setImages := fun _ _ => Except.error "no image" }

/-- As `okEnv`, but every `os.WriteFile` and the final `Encode` return an error. -/
def lossyEnv : Env String String String (List Img) String Nat :=
  { okEnv with
    writeFile := fun _ _ _ _ => some "permission denied"
    encode := fun _ _ => some "short write" }

/-! ## Facts about the image loop -/

theorem calls_writeImages (w : Env Err Proxy Client Data File SortMode) (imgs : List Img) :
    ∀ j, ∀ c ∈ calls (writeImages w j imgs), c = Call.writeFile := by
  induction imgs with
  | nil => intro j c hc; simp [writeImages, calls] at hc
  | cons img rest ih =>
    intro j c hc
    simp only [writeImages, calls, List.map_cons, List.mem_cons] at hc
    rcases hc with hc | hc
    · simpa [Event.call] using hc
    · exact ih (j + 1) c hc

theorem logs_writeImages (w : Env Err Proxy Client Data File SortMode) (imgs : List Img) :
    ∀ j, logs (writeImages w j imgs) = [] := by
  induction imgs with
  | nil => intro j; rfl
  | cons img rest ih =>
    intro j
    simpa [writeImages, logs, Event.log?] using ih (j + 1)

theorem writes_writeImages_length (w : Env Err Proxy Client Data File SortMode)
    (imgs : List Img) : ∀ j, (writes (writeImages w j imgs)).length = imgs.length := by
  induction imgs with
  | nil => intro j; rfl
  | cons img rest ih =>
    intro j
    simpa [writeImages, writes, Event.write?] using ih (j + 1)

theorem writes_writeImages_get (w : Env Err Proxy Client Data File SortMode)
    (imgs : List Img) : ∀ (k j : Nat) (hj : j < imgs.length),
      (writes (writeImages w k imgs))[j]? =
        some (fname3 (k + j) (imgs[j]).Extension, (imgs[j]).Content, 0o644) := by
  induction imgs with
  | nil => intro k j hj; simp at hj
  | cons img rest ih =>
    intro k j hj
    cases j with
    | zero => simp [writeImages, writes, Event.write?]
    | succ i =>
      have hi : i < rest.length := by simpa using hj
      have h := ih (k + 1) i hi
      simp only [writes] at h
      simp only [writeImages, writes, List.filterMap_cons, Event.write?,
        List.getElem?_cons_succ, List.getElem_cons_succ]
      rw [h]
      congr 3
      omega

theorem calls_writeImages_eq (w : Env Err Proxy Client Data File SortMode)
    (imgs : List Img) :
    ∀ j, calls (writeImages w j imgs) = List.replicate imgs.length Call.writeFile := by
  induction imgs with
  | nil => intro j; rfl
  | cons img rest ih =>
    intro j
    have h := ih (j + 1)
    simp only [calls] at h
    simp [writeImages, calls, Event.call, List.replicate_succ, h]

theorem fname3_under_test (j : Nat) (ext : String) :
    fname3 j ext = "./test/" ++ ("images/" ++ Nat.repr j ++ ext) := by
  have h : "./test/images/" = "./test/" ++ "images/" := by decide
  simp only [fname3, h, String.append_assoc]

theorem path_writeImages (w : Env Err Proxy Client Data File SortMode) (imgs : List Img) :
    ∀ j, ∀ e ∈ writeImages w j imgs, ∀ p, e.path? = some p →
      ∃ rest, p = "./test/" ++ rest := by
  induction imgs with
  | nil => intro j e he; simp [writeImages] at he
  | cons img rest ih =>
    intro j e he p hp
    simp only [writeImages, List.mem_cons] at he
    rcases he with he | he
    · subst he
      simp only [Event.path?, Option.some.injEq] at hp
      exact ⟨_, hp ▸ fname3_under_test j img.Extension⟩
    · exact ih (j + 1) e he p hp

theorem getLast?_cons_append_pair {α : Type} (a : α) (l : List α) (x y : α) :
    (a :: (l ++ [x, y])).getLast? = some y := by
  have h : a :: (l ++ [x, y]) = (a :: l ++ [x]) ++ [y] := by simp
  rw [h, List.getLast?_concat]

theorem main_head (r : Line25 Data) (w : Env Err Proxy Client Data File SortMode) :
    (main r w).2.head? = some (Event.mkdirAll "./test/images" 0o644) := by
  cases h1 : w.mkdirAll "./test/images" 0o644 with
  | some err => simp [main, h1]
  | none =>
  cases h2 : w.parseProxy "http://[IP | domain]:[port]" "username" "password" with
  | error err => simp [main, h1, h2]
  | ok proxy =>
  have hfrom : ∀ (data : Data) (e : Event Err Proxy Client Data File SortMode)
      (t : List (Event Err Proxy Client Data File SortMode)),
      (fromLine27 w (w.newClient "es_MX" "San Francisco, CA" w.sortHighestRate proxy)
        data (e :: t)).2.head? = some e := by
    intro data e t
    cases h4 : w.setImages data
        (w.proxyURL (w.newClient "es_MX" "San Francisco, CA" w.sortHighestRate proxy)) with
    | error err => simp [fromLine27, h4]
    | ok data1 => cases h5 : w.create "./test/data.json" <;> simp [fromLine27, h4, h5]
  cases h3 : w.getFromYelpBizURL
      (w.newClient "es_MX" "San Francisco, CA" w.sortHighestRate proxy)
      "https://www.yelp.com.mx/biz/[yelp bizness name]" with
  | error err =>
    cases r with
    | stops => simp [main, h1, h2, h3]
    | fallsThrough data => simpa [main, h1, h2, h3] using hfrom data _ _
  | ok data0 => simpa [main, h1, h2, h3] using hfrom data0 _ _

theorem path_fromLine27 (w : Env Err Proxy Client Data File SortMode) (client : Client)
    (data : Data) (t : List (Event Err Proxy Client Data File SortMode))
    (ht : ∀ e ∈ t, ∀ p, e.path? = some p → ∃ rest, p = "./test/" ++ rest) :
    ∀ e ∈ (fromLine27 w client data t).2, ∀ p, e.path? = some p →
      ∃ rest, p = "./test/" ++ rest := by
  have hjson : ∃ rest, "./test/data.json" = "./test/" ++ rest := ⟨"data.json", by decide⟩
  cases h4 : w.setImages data (w.proxyURL client) with
  | error err =>
    intro e he
    simp only [fromLine27, h4, List.mem_append, List.mem_singleton] at he
    rcases he with (he | he) | he
    · exact ht e he
    · subst he; simp [Event.path?]
    · subst he; simp [Event.path?]
  | ok data1 =>
    have hloop := path_writeImages w (w.images data1) 0
    cases h5 : w.create "./test/data.json" with
    | error err =>
      intro e he
      simp only [fromLine27, h4, h5, List.mem_append, List.mem_singleton] at he
      rcases he with ((((he | he) | he) | he) | he)
      · exact ht e he
      · subst he; simp [Event.path?]
      · exact hloop e he
      · subst he; simp [Event.path?, hjson]
      · subst he; simp [Event.path?]
    | ok f =>
      intro e he
      simp only [fromLine27, h4, h5, List.mem_append, List.mem_singleton] at he
      rcases he with ((((he | he) | he) | he) | he)
      · exact ht e he
      · subst he; simp [Event.path?]
      · exact hloop e he
      · subst he; simp [Event.path?, hjson]
      · subst he; simp [Event.path?]

theorem logs_fromLine27 (w : Env Err Proxy Client Data File SortMode) (client : Client)
    (data : Data) (t : List (Event Err Proxy Client Data File SortMode)) :
    logs (fromLine27 w client data t).2 = logs t ++
      (match w.setImages data (w.proxyURL client) with
       | Except.error err => [("test:3 -> err: ", err)]
       | Except.ok _ =>
         match w.create "./test/data.json" with
         | Except.error err => [("test:4 -> err: ", err)]
         | Except.ok _ => []) := by
  cases h4 : w.setImages data (w.proxyURL client) with
  | error err => simp [fromLine27, h4, logs, Event.log?, List.filterMap_append]
  | ok data1 =>
    have hl := logs_writeImages w (w.images data1) 0
    simp only [logs] at hl
    cases h5 : w.create "./test/data.json" <;>
      simp [fromLine27, h4, h5, logs, Event.log?, List.filterMap_append, hl]

theorem getLast?_fromLine27 (w : Env Err Proxy Client Data File SortMode) (client : Client)
    (data : Data) (t : List (Event Err Proxy Client Data File SortMode)) :
    (fromLine27 w client data t).2.getLast? =
      (match w.setImages data (w.proxyURL client) with
       | Except.error err => some (Event.log "test:3 -> err: " err)
       | Except.ok data1 =>
         match w.create "./test/data.json" with
         | Except.error err => some (Event.log "test:4 -> err: " err)
         | Except.ok f => some (Event.encode f data1 (w.encode f data1))) := by
  cases h4 : w.setImages data (w.proxyURL client) with
  | error err => simp [fromLine27, h4, List.getLast?_concat]
  | ok data1 =>
    cases h5 : w.create "./test/data.json" <;>
      simp [fromLine27, h4, h5, getLast?_cons_append_pair]

/-! ## Facts about decimal rendering -/

theorem digitChar_isDigit (d : Nat) (h : d < 10) : (Nat.digitChar d).isDigit = true := by
  interval_cases d <;> decide

theorem digitValue_digitChar (d : Nat) (h : d < 10) : digitValue (Nat.digitChar d) = d := by
  interval_cases d <;> decide

theorem toDigitsCore_all_digit (fuel : Nat) :
    ∀ (n : Nat) (ds : List Char), (∀ c ∈ ds, c.isDigit = true) →
      ∀ c ∈ Nat.toDigitsCore 10 fuel n ds, c.isDigit = true := by
  induction fuel with
  | zero => intro n ds hds; simpa [Nat.toDigitsCore] using hds
  | succ fuel ih =>
    intro n ds hds
    have hd : ∀ c ∈ Nat.digitChar (n % 10) :: ds, c.isDigit = true := by
      intro c hc
      rcases List.mem_cons.mp hc with hc | hc
      · rw [hc]; exact digitChar_isDigit _ (Nat.mod_lt _ (by decide))
      · exact hds c hc
    simp only [Nat.toDigitsCore]
    split
    · exact hd
    · exact ih (n / 10) _ hd

theorem toDigitsCore_value (fuel : Nat) :
    ∀ (n : Nat) (ds : List Char), n < fuel →
      decimalValue (Nat.toDigitsCore 10 fuel n ds) =
        ds.foldl (fun acc c => 10 * acc + digitValue c) n := by
  induction fuel with
  | zero => intro n ds h; omega
  | succ fuel ih =>
    intro n ds hn
    simp only [Nat.toDigitsCore]
    split
    · rename_i h0
      have hlt : n < 10 := by omega
      simp [decimalValue, Nat.mod_eq_of_lt hlt, digitValue_digitChar n hlt]
    · rename_i h0
      have hlt : n / 10 < fuel := by omega
      rw [ih (n / 10) _ hlt]
      simp only [List.foldl_cons, digitValue_digitChar _ (Nat.mod_lt n (by decide : 0 < 10))]
      congr 1
      omega

theorem repr_all_digit (n : Nat) : ∀ c ∈ (Nat.repr n).data, c.isDigit = true := by
  simpa [Nat.repr, Nat.toDigits, List.asString] using
    toDigitsCore_all_digit (n + 1) n [] (by simp)

theorem decimalValue_repr (n : Nat) : decimalValue (Nat.repr n).data = n := by
  have h := toDigitsCore_value (n + 1) n [] (Nat.lt_succ_self n)
  simpa [Nat.repr, Nat.toDigits, List.asString] using h

theorem digits_prefix_unique :
    ∀ (a b e f : List Char), (∀ c ∈ a, c.isDigit = true) → (∀ c ∈ b, c.isDigit = true) →
      e.head?.all (fun c => !c.isDigit) = true → f.head?.all (fun c => !c.isDigit) = true →
      a ++ e = b ++ f → a = b := by
  intro a
  induction a with
  | nil =>
    intro b e f _ hb he _ h
    cases b with
    | nil => rfl
    | cons y b =>
      simp only [List.nil_append, List.cons_append] at h
      subst h
      have hy := hb y (List.mem_cons_self _ _)
      simp [hy] at he
  | cons x a ih =>
    intro b e f ha hb he hf h
    cases b with
    | nil =>
      simp only [List.nil_append, List.cons_append] at h
      subst h
      have hx := ha x (List.mem_cons_self _ _)
      simp [hx] at hf
    | cons y b =>
      simp only [List.cons_append, List.cons.injEq] at h
      have hab := ih b e f (fun c hc => ha c (List.mem_cons_of_mem _ hc))
        (fun c hc => hb c (List.mem_cons_of_mem _ hc)) he hf h.2
      rw [h.1, hab]

theorem extOk_head (ext : String) (h : extOk ext = true) :
    ext.data.head?.all (fun c => !c.isDigit) = true := by
  unfold extOk at h
  cases hd : ext.data with
  | nil => rfl
  | cons c rest => simpa [hd] using h

theorem fname3_injective (j k : Nat) (e f : String) (he : extOk e = true)
    (hf : extOk f = true) (h : fname3 j e = fname3 k f) : j = k := by
  have hdata := congrArg String.data h
  simp only [fname3, String.data_append, List.append_assoc, List.append_cancel_left_eq]
    at hdata
  have hr := digits_prefix_unique _ _ _ _ (repr_all_digit j) (repr_all_digit k)
    (extOk_head e he) (extOk_head f hf) hdata
  have hv := congrArg decimalValue hr
  rwa [decimalValue_repr, decimalValue_repr] at hv

/-! ## Error branches -/

/-- C1: when `SetImages` returns an error after `MkdirAll`, `ParseProxy` and
`GetFromYelpBizURL` succeeded, the run consists of the five calls up to
`SetImages` followed by exactly one log line and a `return`: no image file is
written and `./test/data.json` is neither created nor encoded into. -/
theorem setImages_error_writes_nothing (r : Line25 Data)
    (w : Env Err Proxy Client Data File SortMode)
    (proxy : Proxy) (data : Data) (err : Err)
    (h1 : w.mkdirAll "./test/images" 0o644 = none)
    (h2 : w.parseProxy "http://[IP | domain]:[port]" "username" "password" = Except.ok proxy)
    (h3 : w.getFromYelpBizURL
        (w.newClient "es_MX" "San Francisco, CA" w.sortHighestRate proxy)
        "https://www.yelp.com.mx/biz/[yelp bizness name]" = Except.ok data)
    (h4 : w.setImages data
        (w.proxyURL (w.newClient "es_MX" "San Francisco, CA" w.sortHighestRate proxy))
        = Except.error err) :
    main r w = (Completion.returned,
      [Event.mkdirAll "./test/images" 0o644,
       Event.parseProxy "http://[IP | domain]:[port]" "username" "password",
       Event.newClient "es_MX" "San Francisco, CA" w.sortHighestRate proxy,
       Event.getFromYelpBizURL
         (w.newClient "es_MX" "San Francisco, CA" w.sortHighestRate proxy)
         "https://www.yelp.com.mx/biz/[yelp bizness name]",
       Event.setImages data
         (w.proxyURL (w.newClient "es_MX" "San Francisco, CA" w.sortHighestRate proxy)),
       Event.log "test:3 -> err: " err])
    ∧ Call.writeFile ∉ calls (main r w).2
    ∧ Call.create ∉ calls (main r w).2
    ∧ Call.encode ∉ calls (main r w).2 := by
  have hm : main r w = (Completion.returned,
      [Event.mkdirAll "./test/images" 0o644,
       Event.parseProxy "http://[IP | domain]:[port]" "username" "password",
       Event.newClient "es_MX" "San Francisco, CA" w.sortHighestRate proxy,
       Event.getFromYelpBizURL
         (w.newClient "es_MX" "San Francisco, CA" w.sortHighestRate proxy)
         "https://www.yelp.com.mx/biz/[yelp bizness name]",
       Event.setImages data
         (w.proxyURL (w.newClient "es_MX" "San Francisco, CA" w.sortHighestRate proxy)),
       Event.log "test:3 -> err: " err]) := by
    simp [main, fromLine27, h1, h2, h3, h4]
  refine ⟨hm, ?_, ?_, ?_⟩ <;> simp [hm, calls, Event.call]

/-- C1 at `imagesFailEnv`. -/
theorem setImages_error_writes_nothing_witness :
    main Line25.stops imagesFailEnv = (Completion.returned,
      [Event.mkdirAll "./test/images" 0o644,
       Event.parseProxy "http://[IP | domain]:[port]" "username" "password",
       Event.newClient "es_MX" "San Francisco, CA" 0 "http://[IP | domain]:[port]",
       Event.getFromYelpBizURL "http://[IP | domain]:[port]"
         "https://www.yelp.com.mx/biz/[yelp bizness name]",
       Event.setImages [] "http://[IP | domain]:[port]",
       Event.log "test:3 -> err: " "no image"])
    ∧ Call.writeFile ∉ calls (main Line25.stops imagesFailEnv).2
    ∧ Call.create ∉ calls (main Line25.stops imagesFailEnv).2
    ∧ Call.encode ∉ calls (main Line25.stops imagesFailEnv).2 :=
  setImages_error_writes_nothing Line25.stops imagesFailEnv "http://[IP | domain]:[port]" []
    "no image" rfl rfl rfl rfl

/-- C2, the code at the failing input `fetchFailEnv`: `GetFromYelpBizURL` returns
an error, the branch logs `test:2` and ends in the `continue` of line 25, where
the sibling branches end in `return`. Read as leaving the body, the run ends
at the log line. Read as not leaving it, control reaches line 27: `SetImages`
is called, both images are written, `./test/data.json` is created and
encoded into. -/
theorem fetch_error_branch_not_return :
    main Line25.stops fetchFailEnv = (Completion.continued,
      [Event.mkdirAll "./test/images" 0o644,
       Event.parseProxy "http://[IP | domain]:[port]" "username" "password",
       Event.newClient "es_MX" "San Francisco, CA" 0 "http://[IP | domain]:[port]",
       Event.getFromYelpBizURL "http://[IP | domain]:[port]"
         "https://www.yelp.com.mx/biz/[yelp bizness name]",
       Event.log "test:2 -> err: " "fetch failed"])
    ∧ main (Line25.fallsThrough []) fetchFailEnv = (Completion.normal,
      [Event.mkdirAll "./test/images" 0o644,
       Event.parseProxy "http://[IP | domain]:[port]" "username" "password",
       Event.newClient "es_MX" "San Francisco, CA" 0 "http://[IP | domain]:[port]",
       Event.getFromYelpBizURL "http://[IP | domain]:[port]"
         "https://www.yelp.com.mx/biz/[yelp bizness name]",
       Event.log "test:2 -> err: " "fetch failed",
       Event.setImages [] "http://[IP | domain]:[port]",
       Event.writeFile "./test/images/0.jpg" [255, 216, 255] 0o644 none,
       Event.writeFile "./test/images/1.png" [137, 80, 78, 71] 0o644 none,
       Event.create "./test/data.json",
       Event.encode "./test/data.json" twoImages none])
    ∧ Call.setImages ∈ calls (main (Line25.fallsThrough []) fetchFailEnv).2
    ∧ Call.writeFile ∈ calls (main (Line25.fallsThrough []) fetchFailEnv).2
    ∧ Call.create ∈ calls (main (Line25.fallsThrough []) fetchFailEnv).2 := by
  refine ⟨?_, ?_, ?_, ?_, ?_⟩ <;> decide

/-- C3: when `ParseProxy` returns an error, `main` returns after one log line
without calling `NewClient`, `GetFromYelpBizURL` or `SetImages` and without any
`os.WriteFile`, `os.Create` or `Encode`; the run is `MkdirAll`, `ParseProxy`,
the log line. -/
theorem parseProxy_error_before_network (r : Line25 Data)
    (w : Env Err Proxy Client Data File SortMode)
    (err : Err)
    (h1 : w.mkdirAll "./test/images" 0o644 = none)
    (h2 : w.parseProxy "http://[IP | domain]:[port]" "username" "password"
        = Except.error err) :
    main r w = (Completion.returned,
      [Event.mkdirAll "./test/images" 0o644,
       Event.parseProxy "http://[IP | domain]:[port]" "username" "password",
       Event.log "test:1 -> err: " err])
    ∧ Call.newClient ∉ calls (main r w).2
    ∧ Call.getFromYelpBizURL ∉ calls (main r w).2
    ∧ Call.setImages ∉ calls (main r w).2
    ∧ Call.writeFile ∉ calls (main r w).2
    ∧ Call.create ∉ calls (main r w).2
    ∧ Call.encode ∉ calls (main r w).2 := by
  have hm : main r w = (Completion.returned,
      [Event.mkdirAll "./test/images" 0o644,
       Event.parseProxy "http://[IP | domain]:[port]" "username" "password",
       Event.log "test:1 -> err: " err]) := by
    simp [main, fromLine27, h1, h2]
  refine ⟨hm, ?_, ?_, ?_, ?_, ?_, ?_⟩ <;> simp [hm, calls, Event.call]

/-- C3 at `badProxyEnv`. -/
theorem parseProxy_error_before_network_witness :
    main Line25.stops badProxyEnv = (Completion.returned,
      [Event.mkdirAll "./test/images" 0o644,
       Event.parseProxy "http://[IP | domain]:[port]" "username" "password",
       Event.log "test:1 -> err: " "invalid proxy"])
    ∧ Call.newClient ∉ calls (main Line25.stops badProxyEnv).2
    ∧ Call.getFromYelpBizURL ∉ calls (main Line25.stops badProxyEnv).2
    ∧ Call.setImages ∉ calls (main Line25.stops badProxyEnv).2
    ∧ Call.writeFile ∉ calls (main Line25.stops badProxyEnv).2
    ∧ Call.create ∉ calls (main Line25.stops badProxyEnv).2
    ∧ Call.encode ∉ calls (main Line25.stops badProxyEnv).2 :=
  parseProxy_error_before_network Line25.stops badProxyEnv "invalid proxy" rfl rfl

/-! ## The successful run -/

/-- C4: after a successful `SetImages` that leaves `data.Images = imgs`, `main`
issues exactly `imgs.length` calls of `os.WriteFile`, and the `j`-th of them
(from 0, in the order of the calls) has path `"./test/images/" ++ decimal j ++
imgs[j].Extension`, content `imgs[j].Content` and mode `0644`. -/
theorem image_writes_follow_sequence (r : Line25 Data)
    (w : Env Err Proxy Client Data File SortMode)
    (proxy : Proxy) (data0 data : Data)
    (h1 : w.mkdirAll "./test/images" 0o644 = none)
    (h2 : w.parseProxy "http://[IP | domain]:[port]" "username" "password" = Except.ok proxy)
    (h3 : w.getFromYelpBizURL
        (w.newClient "es_MX" "San Francisco, CA" w.sortHighestRate proxy)
        "https://www.yelp.com.mx/biz/[yelp bizness name]" = Except.ok data0)
    (h4 : w.setImages data0
        (w.proxyURL (w.newClient "es_MX" "San Francisco, CA" w.sortHighestRate proxy))
        = Except.ok data) :
    (writes (main r w).2).length = (w.images data).length
    ∧ ∀ (j : Nat) (hj : j < (w.images data).length),
        (writes (main r w).2)[j]? =
          some ("./test/images/" ++ Nat.repr j ++ ((w.images data)[j]).Extension,
                ((w.images data)[j]).Content, 0o644) := by
  have hw : writes (main r w).2 = writes (writeImages w 0 (w.images data)) := by
    cases h5 : w.create "./test/data.json" <;>
      simp [main, fromLine27, h1, h2, h3, h4, h5, writes, Event.write?, List.filterMap_append]
  rw [hw]
  refine ⟨writes_writeImages_length w _ 0, ?_⟩
  intro j hj
  have h := writes_writeImages_get w (w.images data) 0 j hj
  simpa [fname3] using h

/-- C4 at `okEnv`: two images, two writes, the second one named `1.png`. -/
theorem image_writes_follow_sequence_witness :
    (writes (main Line25.stops okEnv).2).length = 2
    ∧ (writes (main Line25.stops okEnv).2)[1]? =
        some ("./test/images/1.png", [137, 80, 78, 71], 0o644) :=
  ⟨(image_writes_follow_sequence Line25.stops okEnv "http://[IP | domain]:[port]" [] twoImages
      rfl rfl rfl rfl).1,
   (image_writes_follow_sequence Line25.stops okEnv "http://[IP | domain]:[port]" [] twoImages
      rfl rfl rfl rfl).2 1 (by decide)⟩

/-- C7: when every checked call succeeds, the run is, in this order and once
each: `os.MkdirAll`, `goelp.ParseProxy`, `goelp.NewClient`, `GetFromYelpBizURL`,
`SetImages` with `client.ProxyURL`, one `os.WriteFile` per image, `os.Create` of
`./test/data.json`, and one `Encode` of the variable `data`; the body then ends
normally. When `goelp.NewClient` keeps the proxy it is given in the field
`ProxyURL`, the proxy handed to `SetImages` is the one the client was built
with. -/
theorem success_run_composition (r : Line25 Data)
    (w : Env Err Proxy Client Data File SortMode)
    (proxy : Proxy) (data0 data : Data) (f : File)
    (h1 : w.mkdirAll "./test/images" 0o644 = none)
    (h2 : w.parseProxy "http://[IP | domain]:[port]" "username" "password" = Except.ok proxy)
    (h3 : w.getFromYelpBizURL
        (w.newClient "es_MX" "San Francisco, CA" w.sortHighestRate proxy)
        "https://www.yelp.com.mx/biz/[yelp bizness name]" = Except.ok data0)
    (h4 : w.setImages data0
        (w.proxyURL (w.newClient "es_MX" "San Francisco, CA" w.sortHighestRate proxy))
        = Except.ok data)
    (h5 : w.create "./test/data.json" = Except.ok f) :
    main r w = (Completion.normal,
      [Event.mkdirAll "./test/images" 0o644,
       Event.parseProxy "http://[IP | domain]:[port]" "username" "password",
       Event.newClient "es_MX" "San Francisco, CA" w.sortHighestRate proxy,
       Event.getFromYelpBizURL
         (w.newClient "es_MX" "San Francisco, CA" w.sortHighestRate proxy)
         "https://www.yelp.com.mx/biz/[yelp bizness name]",
       Event.setImages data0
         (w.proxyURL (w.newClient "es_MX" "San Francisco, CA" w.sortHighestRate proxy))]
      ++ writeImages w 0 (w.images data)
      ++ [Event.create "./test/data.json", Event.encode f data (w.encode f data)])
    ∧ calls (main r w).2 =
      [Call.mkdirAll, Call.parseProxy, Call.newClient, Call.getFromYelpBizURL, Call.setImages]
      ++ List.replicate (w.images data).length Call.writeFile
      ++ [Call.create, Call.encode]
    ∧ ((∀ locale location sort p, w.proxyURL (w.newClient locale location sort p) = p) →
        (main r w).2[4]? = some (Event.setImages data0 proxy)) := by
  have hm : main r w = (Completion.normal,
      [Event.mkdirAll "./test/images" 0o644,
       Event.parseProxy "http://[IP | domain]:[port]" "username" "password",
       Event.newClient "es_MX" "San Francisco, CA" w.sortHighestRate proxy,
       Event.getFromYelpBizURL
         (w.newClient "es_MX" "San Francisco, CA" w.sortHighestRate proxy)
         "https://www.yelp.com.mx/biz/[yelp bizness name]",
       Event.setImages data0
         (w.proxyURL (w.newClient "es_MX" "San Francisco, CA" w.sortHighestRate proxy))]
      ++ writeImages w 0 (w.images data)
      ++ [Event.create "./test/data.json", Event.encode f data (w.encode f data)]) := by
    simp [main, fromLine27, h1, h2, h3, h4, h5]
  refine ⟨hm, ?_, ?_⟩
  · have hc := calls_writeImages_eq w (w.images data) 0
    simp only [calls] at hc
    simp [hm, calls, Event.call, hc]
  · intro hp
    simp [hm, hp]

/-- C7 at `okEnv`. -/
theorem success_run_composition_witness :
    main Line25.stops okEnv = (Completion.normal,
      [Event.mkdirAll "./test/images" 0o644,
       Event.parseProxy "http://[IP | domain]:[port]" "username" "password",
       Event.newClient "es_MX" "San Francisco, CA" 0 "http://[IP | domain]:[port]",
       Event.getFromYelpBizURL "http://[IP | domain]:[port]"
         "https://www.yelp.com.mx/biz/[yelp bizness name]",
       Event.setImages [] "http://[IP | domain]:[port]",
       Event.writeFile "./test/images/0.jpg" [255, 216, 255] 0o644 none,
       Event.writeFile "./test/images/1.png" [137, 80, 78, 71] 0o644 none,
       Event.create "./test/data.json",
       Event.encode "./test/data.json" twoImages none])
    ∧ calls (main Line25.stops okEnv).2 =
      [Call.mkdirAll, Call.parseProxy, Call.newClient, Call.getFromYelpBizURL, Call.setImages,
       Call.writeFile, Call.writeFile, Call.create, Call.encode]
    ∧ (main Line25.stops okEnv).2[4]? = some (Event.setImages [] "http://[IP | domain]:[port]") :=
  have h := success_run_composition Line25.stops okEnv "http://[IP | domain]:[port]" [] twoImages
    "./test/data.json" rfl rfl rfl rfl rfl
  ⟨h.1, h.2.1, h.2.2 (fun _ _ _ _ => rfl)⟩

/-- C8: in every run, every path `main` passes to `os.MkdirAll`, `os.WriteFile`
or `os.Create` begins with `"./test/"`. -/
theorem paths_under_test (r : Line25 Data) (w : Env Err Proxy Client Data File SortMode) :
    ∀ e ∈ (main r w).2, ∀ p, e.path? = some p → ∃ rest, p = "./test/" ++ rest := by
  have hdir : ∃ rest, "./test/images" = "./test/" ++ rest := ⟨"images", by decide⟩
  cases h1 : w.mkdirAll "./test/images" 0o644 with
  | some err => simp [main, h1, Event.path?, hdir]
  | none =>
  cases h2 : w.parseProxy "http://[IP | domain]:[port]" "username" "password" with
  | error err => simp [main, h1, h2, Event.path?, hdir]
  | ok proxy =>
  cases h3 : w.getFromYelpBizURL
      (w.newClient "es_MX" "San Francisco, CA" w.sortHighestRate proxy)
      "https://www.yelp.com.mx/biz/[yelp bizness name]" with
  | error err =>
    cases r with
    | stops => simp [main, h1, h2, h3, Event.path?, hdir]
    | fallsThrough data =>
      have hm : main (Line25.fallsThrough data) w = fromLine27 w
          (w.newClient "es_MX" "San Francisco, CA" w.sortHighestRate proxy) data
          [Event.mkdirAll "./test/images" 0o644,
           Event.parseProxy "http://[IP | domain]:[port]" "username" "password",
           Event.newClient "es_MX" "San Francisco, CA" w.sortHighestRate proxy,
           Event.getFromYelpBizURL
             (w.newClient "es_MX" "San Francisco, CA" w.sortHighestRate proxy)
             "https://www.yelp.com.mx/biz/[yelp bizness name]",
           Event.log "test:2 -> err: " err] := by
        simp [main, h1, h2, h3]
      rw [hm]
      exact path_fromLine27 w _ data _ (by simp [Event.path?, hdir])
  | ok data0 =>
    have hm : main r w = fromLine27 w
        (w.newClient "es_MX" "San Francisco, CA" w.sortHighestRate proxy) data0
        [Event.mkdirAll "./test/images" 0o644,
         Event.parseProxy "http://[IP | domain]:[port]" "username" "password",
         Event.newClient "es_MX" "San Francisco, CA" w.sortHighestRate proxy,
         Event.getFromYelpBizURL
           (w.newClient "es_MX" "San Francisco, CA" w.sortHighestRate proxy)
           "https://www.yelp.com.mx/biz/[yelp bizness name]"] := by
      simp [main, h1, h2, h3]
    rw [hm]
    exact path_fromLine27 w _ data0 _ (by simp [Event.path?, hdir])

/-- C8 at `okEnv`, for the write of the second image. -/
theorem paths_under_test_witness :
    Event.writeFile "./test/images/1.png" [137, 80, 78, 71] 0o644 none
      ∈ (main Line25.stops okEnv).2
    ∧ ∃ rest, "./test/images/1.png" = "./test/" ++ rest :=
  ⟨by decide,
   paths_under_test Line25.stops okEnv
     (Event.writeFile "./test/images/1.png" [137, 80, 78, 71] 0o644 none)
     (by decide) "./test/images/1.png" rfl⟩

/-! ## Error reporting -/

/-- Under every reading of line 25 and for every outcome of the five checked
stages: if all succeed, no line is logged and the run ends with the `Encode`
call; otherwise the first line logged carries the tag and the error of the
first stage that failed, and for every stage but `GetFromYelpBizURL` it is the
only line logged and the last thing the run does. The five tags are pairwise
distinct. -/
theorem log_lines_name_first_failure (r : Line25 Data)
    (w : Env Err Proxy Client Data File SortMode) :
    (match firstFailed w with
     | none => logs (main r w).2 = []
         ∧ ∃ f data res, (main r w).2.getLast? = some (Event.encode f data res)
     | some (Stage.getFromYelpBizURL, err) =>
         (logs (main r w).2).head? = some ("test:2 -> err: ", err)
     | some (stage, err) => logs (main r w).2 = [(stage.tag, err)]
         ∧ (main r w).2.getLast? = some (Event.log stage.tag err))
    ∧ Function.Injective Stage.tag := by
  refine ⟨?_, ?_⟩
  · cases h1 : w.mkdirAll "./test/images" 0o644 with
    | some err => simp [main, firstFailed, h1, logs, Event.log?, Stage.tag]
    | none =>
    cases h2 : w.parseProxy "http://[IP | domain]:[port]" "username" "password" with
    | error err => simp [main, firstFailed, h1, h2, logs, Event.log?, Stage.tag]
    | ok proxy =>
    cases h3 : w.getFromYelpBizURL
        (w.newClient "es_MX" "San Francisco, CA" w.sortHighestRate proxy)
        "https://www.yelp.com.mx/biz/[yelp bizness name]" with
    | error err =>
      cases r with
      | stops => simp [main, firstFailed, h1, h2, h3, logs, Event.log?]
      | fallsThrough data =>
        have hl := logs_fromLine27 w
          (w.newClient "es_MX" "San Francisco, CA" w.sortHighestRate proxy) data
          [Event.mkdirAll "./test/images" 0o644,
           Event.parseProxy "http://[IP | domain]:[port]" "username" "password",
           Event.newClient "es_MX" "San Francisco, CA" w.sortHighestRate proxy,
           Event.getFromYelpBizURL
             (w.newClient "es_MX" "San Francisco, CA" w.sortHighestRate proxy)
             "https://www.yelp.com.mx/biz/[yelp bizness name]",
           Event.log "test:2 -> err: " err]
        simp only [main, firstFailed, h1, h2, h3, List.singleton_append, List.cons_append,
          List.nil_append]
        rw [hl]
        simp [logs, Event.log?]
    | ok data0 =>
      have hl := logs_fromLine27 w
        (w.newClient "es_MX" "San Francisco, CA" w.sortHighestRate proxy) data0
        [Event.mkdirAll "./test/images" 0o644,
         Event.parseProxy "http://[IP | domain]:[port]" "username" "password",
         Event.newClient "es_MX" "San Francisco, CA" w.sortHighestRate proxy,
         Event.getFromYelpBizURL
           (w.newClient "es_MX" "San Francisco, CA" w.sortHighestRate proxy)
           "https://www.yelp.com.mx/biz/[yelp bizness name]"]
      have hg := getLast?_fromLine27 w
        (w.newClient "es_MX" "San Francisco, CA" w.sortHighestRate proxy) data0
        [Event.mkdirAll "./test/images" 0o644,
         Event.parseProxy "http://[IP | domain]:[port]" "username" "password",
         Event.newClient "es_MX" "San Francisco, CA" w.sortHighestRate proxy,
         Event.getFromYelpBizURL
           (w.newClient "es_MX" "San Francisco, CA" w.sortHighestRate proxy)
           "https://www.yelp.com.mx/biz/[yelp bizness name]"]
      simp only [main, firstFailed, h1, h2, h3, List.singleton_append, List.cons_append,
        List.nil_append]
      rw [hl, hg]
      cases h4 : w.setImages data0
          (w.proxyURL (w.newClient "es_MX" "San Francisco, CA" w.sortHighestRate proxy)) with
      | error err => simp [logs, Event.log?, Stage.tag]
      | ok data =>
        cases h5 : w.create "./test/data.json" <;> simp [logs, Event.log?, Stage.tag]
  · intro s t h
    cases s <;> cases t <;> first | rfl | (exact absurd h (by decide))

/-- C6, the code at the failing input `twoFailEnv`: `GetFromYelpBizURL` and
`SetImages` both return an error. The first stage that fails is the page
fetch; its branch ends in the `continue` of line 25, not in a `return`. Read
as not leaving the body, the run logs two lines, `test:2` and then `test:3`;
read as leaving it, the run logs `test:2` only. -/
theorem fetch_and_setImages_errors_log_twice :
    firstFailed twoFailEnv = some (Stage.getFromYelpBizURL, "fetch failed")
    ∧ main (Line25.fallsThrough []) twoFailEnv = (Completion.returned,
      [Event.mkdirAll "./test/images" 0o644,
       Event.parseProxy "http://[IP | domain]:[port]" "username" "password",
       Event.newClient "es_MX" "San Francisco, CA" 0 "http://[IP | domain]:[port]",
       Event.getFromYelpBizURL "http://[IP | domain]:[port]"
         "https://www.yelp.com.mx/biz/[yelp bizness name]",
       Event.log "test:2 -> err: " "fetch failed",
       Event.setImages [] "http://[IP | domain]:[port]",
       Event.log "test:3 -> err: " "no image"])
    ∧ logs (main (Line25.fallsThrough []) twoFailEnv).2 =
      [("test:2 -> err: ", "fetch failed"), ("test:3 -> err: ", "no image")]
    ∧ logs (main Line25.stops twoFailEnv).2 = [("test:2 -> err: ", "fetch failed")] := by
  refine ⟨?_, ?_, ?_, ?_⟩ <;> decide

/-- C5, the code at the failing input `lossyEnv`: both `os.WriteFile` calls
and the `Encode` call return an error, yet no line is logged, the run goes on
after each of them and the body ends normally. -/
theorem dropped_errors_not_reported (r : Line25 (List Img)) :
    main r lossyEnv = (Completion.normal,
      [Event.mkdirAll "./test/images" 0o644,
       Event.parseProxy "http://[IP | domain]:[port]" "username" "password",
       Event.newClient "es_MX" "San Francisco, CA" 0 "http://[IP | domain]:[port]",
       Event.getFromYelpBizURL "http://[IP | domain]:[port]"
         "https://www.yelp.com.mx/biz/[yelp bizness name]",
       Event.setImages [] "http://[IP | domain]:[port]",
       Event.writeFile "./test/images/0.jpg" [255, 216, 255] 0o644 (some "permission denied"),
       Event.writeFile "./test/images/1.png" [137, 80, 78, 71] 0o644
         (some "permission denied"),
       Event.create "./test/data.json",
       Event.encode "./test/data.json" twoImages (some "short write")])
    ∧ logs (main r lossyEnv).2 = [] := by
  have hm : main r lossyEnv = main Line25.stops lossyEnv := rfl
  rw [hm]
  constructor <;> decide

/-- C10, the code: the mode `main` passes to `os.MkdirAll` for
`"./test/images"` is `0644`; of the owner bits `0300` it has the write bit
`0200` only, the search bit `0100` is clear. -/
theorem mkdirAll_mode_lacks_search_bit (r : Line25 Data)
    (w : Env Err Proxy Client Data File SortMode) :
    ∃ perm, (main r w).2.head? = some (Event.mkdirAll "./test/images" perm)
      ∧ perm = 0o644 ∧ perm &&& 0o300 = 0o200 ∧ perm &&& 0o100 = 0
      ∧ perm &&& 0o300 ≠ 0o300 := by
  exact ⟨0o644, main_head r w, rfl, by decide, by decide, by decide⟩

/-! ## Image file names -/

/-- C9: when every extension of the image sequence is empty or begins with a
character that is not a decimal digit, the names formatted for two different
indices are different strings, and the paths of the `os.WriteFile` calls of the
image loop are pairwise distinct. -/
theorem image_names_distinct (w : Env Err Proxy Client Data File SortMode)
    (imgs : List Img) (hext : ∀ img ∈ imgs, extOk img.Extension = true) :
    (∀ (j k : Nat) (hj : j < imgs.length) (hk : k < imgs.length), j ≠ k →
      "./test/images/" ++ Nat.repr j ++ (imgs[j]).Extension
        ≠ "./test/images/" ++ Nat.repr k ++ (imgs[k]).Extension)
    ∧ ((writes (writeImages w 0 imgs)).map Prod.fst).Nodup := by
  have hne : ∀ (j k : Nat) (hj : j < imgs.length) (hk : k < imgs.length), j ≠ k →
      fname3 j (imgs[j]).Extension ≠ fname3 k (imgs[k]).Extension := by
    intro j k hj hk hjk h
    exact hjk (fname3_injective j k _ _ (hext _ (List.getElem_mem hj))
      (hext _ (List.getElem_mem hk)) h)
  refine ⟨hne, ?_⟩
  rw [List.nodup_iff_getElem?_ne_getElem?]
  intro j k hjk hk
  have hlen := writes_writeImages_length w imgs 0
  rw [List.length_map, hlen] at hk
  have hj : j < imgs.length := by omega
  have h1 := writes_writeImages_get w imgs 0 j hj
  have h2 := writes_writeImages_get w imgs 0 k hk
  rw [List.getElem?_map, List.getElem?_map, h1, h2]
  simp only [Nat.zero_add, Option.map_some', ne_eq, Option.some.injEq]
  exact hne j k hj hk (by omega)

/-- C9 at the two images `.jpg`, `.png`: `0.jpg` and `1.png` differ. -/
theorem image_names_distinct_witness :
    "./test/images/" ++ Nat.repr 0 ++ ".jpg" ≠ "./test/images/" ++ Nat.repr 1 ++ ".png"
    ∧ ((writes (writeImages okEnv 0 twoImages)).map Prod.fst).Nodup :=
  ⟨(image_names_distinct okEnv twoImages (by decide)).1 0 1 (by decide) (by decide)
      (by decide),
   (image_names_distinct okEnv twoImages (by decide)).2⟩

end Webscraper
